import Mathlib

/-!
Shallow embedding of the BCE DOC service client (`src/services/doc/api/document.go`).

The file embeds the seven document operations (RegisterDocument, PublishDocument,
QueryDocument, ReadDocument, GetImages, DeleteDocument, ListDocuments) over a
request-descriptor type mirroring `bce.BceRequest` and an injected transport
(`bce.Client.SendRequest`).  Collaborators that are part of the repository but not
under `src/` (the `bce` request/response plumbing, the JSON codec, and
`ListDocumentsParam.Check`) are modelled from the spec, each marked in its doc
comment.  Operations return the pair (typed result, error) together with an event
trace recording each transport invocation and each attempt to parse a success
body, so that "no network call" and "the success-body parse is never attempted"
are statements about the trace.
-/

namespace BceDoc

/-- Modelled from the spec: the error taxonomy of §7 (`error` values in Go carry no
static kind; the four kinds of the spec are made explicit constructors). -/
inductive DocError where
  | invalidArg (msg : String)
  | transport (msg : String)
  | service (code msg : String)
  | decode (msg : String)
  deriving DecidableEq, Repr

/-- Modelled from the spec: the request descriptor (`bce.BceRequest` is not under
src/) — target path, method, query parameters, headers and optional body.  Query
parameters and headers are key/value maps; they are represented as association
lists updated with map semantics. -/
structure BceRequest where
  uri : String := ""
  method : String := ""
  params : List (String × String) := []
  headers : List (String × String) := []
  body : Option (List Char) := none
  deriving DecidableEq, Repr

/-- Map lookup on an association list. -/
def lookupKV (l : List (String × String)) (k : String) : Option String :=
  match l with
  | [] => none
  | (k2, v) :: rest => if k2 = k then some v else lookupKV rest k

/-- Map update on an association list: overwrite the entry if the key is present,
append it otherwise. -/
def setKV (l : List (String × String)) (k v : String) : List (String × String) :=
  match l with
  | [] => [(k, v)]
  | (k2, v2) :: rest => if k2 = k then (k, v) :: rest else (k2, v2) :: setKV rest k v

def BceRequest.setUri (req : BceRequest) (u : String) : BceRequest :=
  { req with uri := u }

def BceRequest.setMethod (req : BceRequest) (m : String) : BceRequest :=
  { req with method := m }

def BceRequest.setParam (req : BceRequest) (k v : String) : BceRequest :=
  { req with params := setKV req.params k v }

def BceRequest.setHeader (req : BceRequest) (k v : String) : BceRequest :=
  { req with headers := setKV req.headers k v }

def BceRequest.setBody (req : BceRequest) (b : List Char) : BceRequest :=
  { req with body := some b }

/-- `http.POST` (constant of the http package, not under src/). -/
def POST : String := "POST"

/-- `http.GET`. -/
def GET : String := "GET"

/-- `http.PUT`. -/
def PUT : String := "PUT"

/-- `http.DELETE`. -/
def DELETE : String := "DELETE"

/-- `http.CONTENT_TYPE`. -/
def CONTENT_TYPE : String := "Content-Type"

/-- Modelled from the spec: `bce.DEFAULT_CONTENT_TYPE` is not under src/; the spec
says all requests except List carry the Content-Type header set to a fixed
default value. -/
def DEFAULT_CONTENT_TYPE : String := "application/json;charset=utf-8"

/-- `strconv.FormatBool`. -/
def FormatBool (b : Bool) : String :=
  if b then "true" else "false"

/-- `strconv.FormatInt(i, 10)`: decimal formatting of a signed integer. -/
def FormatInt (i : Int) : String :=
  toString i

/-- `RegDocumentParam` — {title, format} (§3 of the spec; declared in the doc
model file, not under src/). -/
structure RegDocumentParam where
  title : String
  format : String
  deriving DecidableEq, Repr

/-- Modelled from the spec: `RegDocumentResp` — {documentId, location}. -/
structure RegDocumentResp where
  documentId : String
  location : String
  deriving DecidableEq, Repr

/-- Modelled from the spec: `QueryDocumentParam` — {Https : bool}. -/
structure QueryDocumentParam where
  Https : Bool
  deriving DecidableEq, Repr

/-- Modelled from the spec: `QueryDocumentResp` — opaque passthrough record. -/
structure QueryDocumentResp where
  documentId : String
  status : String
  coverUrl : String
  deriving DecidableEq, Repr

/-- Modelled from the spec: `ReadDocumentParam` — {ExpireInSeconds : int64}. -/
structure ReadDocumentParam where
  ExpireInSeconds : Int
  deriving DecidableEq, Repr

/-- Modelled from the spec: `ReadDocumentResp` — token/url for rendering. -/
structure ReadDocumentResp where
  documentId : String
  token : String
  deriving DecidableEq, Repr

/-- Modelled from the spec: `GetImagesResp` — ordered sequence of image URLs. -/
structure GetImagesResp where
  images : List String
  deriving DecidableEq, Repr

/-- `ListDocumentsParam` — {Status, Marker, MaxSize} (§3 of the spec; declared in
the doc model file, not under src/). -/
structure ListDocumentsParam where
  Status : String
  Marker : String
  MaxSize : Int
  deriving DecidableEq, Repr

/-- Modelled from the spec: `ListDocumentsResp` — document summaries plus
pagination continuation info. -/
structure ListDocumentsResp where
  documents : List String
  marker : String
  isTruncated : Bool
  deriving DecidableEq, Repr

/-- Modelled from the spec: `ListDocumentsParam.Check` is not under src/.  The
spec requires list params to pass a validity check — maxSize within an allowed
range (a negative maxSize is invalid) and status one of the recognized enum
values if non-empty; the exact bounds are a policy point, fixed here as
0 ≤ maxSize ≤ 200 and the lifecycle enum of §3. -/
def ListDocumentsParam.Check (p : ListDocumentsParam) : Option DocError :=
  if p.MaxSize < 0 ∨ 200 < p.MaxSize then
    some (DocError.invalidArg "invalid maxSize")
  else if p.Status ≠ "" ∧ p.Status ∉ ["PENDING", "RUNNING", "PUBLISHED", "FAILED"] then
    some (DocError.invalidArg "invalid status")
  else
    none

/-- Modelled from the spec: the service-failure response envelope and success body
carried by `bce.BceResponse` (not under src/): `IsFail`, the decoded service
error (`ServiceError()`), and the raw success-body bytes handed to the codec. -/
structure BceResponse where
  failed : Bool
  svcCode : String
  svcMsg : String
  body : List Char
  deriving DecidableEq, Repr

/-- `resp.IsFail()`. -/
def BceResponse.IsFail (r : BceResponse) : Bool := r.failed

/-- `resp.ServiceError()`: the decoded service error of the envelope. -/
def BceResponse.serviceError (r : BceResponse) : DocError :=
  DocError.service r.svcCode r.svcMsg

/-- Modelled from the spec: the outcome of one `cli.SendRequest` call — either a
transport-level error or a populated response. -/
inductive SendOutcome where
  | transportErr (e : DocError)
  | response (resp : BceResponse)
  deriving DecidableEq, Repr

/-- Modelled from the spec: the injected transport collaborator (`bce.Client`),
a function from request descriptor to send outcome. -/
structure DocClient where
  send : BceRequest → SendOutcome

/-- Events observable during one operation: each transport invocation and each
attempt to parse a success body. -/
inductive Event where
  | send (req : BceRequest)
  | parse (body : List Char)
  deriving DecidableEq, Repr

/-- The (typed result, error) pair a Go operation returns, together with the
event trace of the call. -/
structure Outcome (T : Type) where
  result : Option T
  err : Option DocError
  trace : List Event
  deriving DecidableEq, Repr

/-- Modelled from the spec: the JSON codec collaborator decoding a success body
into a typed result. -/
def Decoder (T : Type) : Type := List Char → Except DocError T

/-- The shared response tail of the result-returning operations (document.go
lines 57–68 and their copies): send the request, surface a transport error
unchanged, on IsFail return the decoded service error without touching the body,
otherwise parse the JSON body into the typed result. -/
def runOp {T : Type} (cli : DocClient) (dec : Decoder T) (req : BceRequest) :
    Outcome T :=
  match cli.send req with
  | SendOutcome.transportErr e => ⟨none, some e, [Event.send req]⟩
  | SendOutcome.response resp =>
    if resp.IsFail then
      ⟨none, some resp.serviceError, [Event.send req]⟩
    else
      match dec resp.body with
      | Except.error e => ⟨none, some e, [Event.send req, Event.parse resp.body]⟩
      | Except.ok result => ⟨some result, none, [Event.send req, Event.parse resp.body]⟩

/-- The shared response tail of PublishDocument and DeleteDocument, which return
only an error and never parse a body. -/
def runOpNoParse (cli : DocClient) (req : BceRequest) :
    Option DocError × List Event :=
  match cli.send req with
  | SendOutcome.transportErr e => (some e, [Event.send req])
  | SendOutcome.response resp =>
    if resp.IsFail then (some resp.serviceError, [Event.send req])
    else (none, [Event.send req])

/-- JSON string escaping of one character (only the two characters that the
serialized record's fields would otherwise break on). -/
def escapeChar (c : Char) : List Char :=
  if c = '"' then ['\\', '"'] else if c = '\\' then ['\\', '\\'] else [c]

/-- JSON string escaping of a character sequence. -/
def escapeChars : List Char → List Char
  | [] => []
  | c :: rest => escapeChar c ++ escapeChars rest

/-- The opening characters of the serialized record up to the title value. -/
def regTitleTag : List Char :=
  ['{', '"', 't', 'i', 't', 'l', 'e', '"', ':', '"']

/-- The characters between the title value's closing quote and the format
value. -/
def regFormatTag : List Char :=
  [',', '"', 'f', 'o', 'r', 'm', 'a', 't', '"', ':', '"']

/-- Modelled from the spec: `regParam.String()` (JSON marshalling via the codec
collaborator, not under src/) — the body is the JSON-serialized {title, format}
record. -/
def regDocumentBody (p : RegDocumentParam) : List Char :=
  regTitleTag ++
    (escapeChars p.title.data ++
      '"' :: (regFormatTag ++ (escapeChars p.format.data ++ '"' :: ['}'])))

/-- Modelled from the spec: `RegDocumentParam.String` returns the marshalled body;
serializing a record of two strings always succeeds, so the error branch of
document.go lines 42–44 is never taken. -/
def RegDocumentParam.String (p : RegDocumentParam) : Except DocError (List Char) :=
  Except.ok (regDocumentBody p)

/-- Scan a JSON string body up to its closing unescaped quote, returning the
unescaped content and the remainder after the quote. -/
def scanJsonStr : List Char → Option (List Char × List Char)
  | [] => none
  | '"' :: rest => some ([], rest)
  | '\\' :: [] => none
  | '\\' :: d :: rest2 =>
    match scanJsonStr rest2 with
    | none => none
    | some (s, r) => some (d :: s, r)
  | c :: rest =>
    match scanJsonStr rest with
    | none => none
    | some (s, r) => some (c :: s, r)

/-- Strip an expected literal prefix off a character sequence, returning the
remainder when the prefix matches. -/
def stripPrefixChars : List Char → List Char → Option (List Char)
  | [], cs => some cs
  | _ :: _, [] => none
  | p :: ps, c :: cs => if p = c then stripPrefixChars ps cs else none

/-- Modelled from the spec: the codec's deserialization of a JSON-serialized
{title, format} record, the inverse direction of `regDocumentBody`. -/
def parseRegBody (cs : List Char) : Option RegDocumentParam :=
  match stripPrefixChars regTitleTag cs with
  | none => none
  | some rest =>
    match scanJsonStr rest with
    | none => none
    | some (t, rest2) =>
      match stripPrefixChars regFormatTag rest2 with
      | none => none
      | some rest3 =>
        match scanJsonStr rest3 with
        | none => none
        | some (f, rest4) =>
          match rest4 with
          | ['}'] => some ⟨String.mk t, String.mk f⟩
          | _ => none

/-- The request RegisterDocument builds (document.go lines 50–55): POST
/v2/document?register with the serialized body and the default content type. -/
def registerDocumentReq (playload : List Char) : BceRequest :=
  (((((({} : BceRequest).setUri "/v2/document").setParam "register" "").setMethod
    POST).setHeader CONTENT_TYPE DEFAULT_CONTENT_TYPE).setBody playload)

/-- `RegisterDocument` (document.go lines 37–69).  The nil guard on `regParam`
returns before anything else runs; note `bce.NewBodyFromString` (not under src/)
is modelled from the spec as the identity on the payload string, its error
branch never taken. -/
def RegisterDocument (cli : DocClient) (dec : Decoder RegDocumentResp)
    (regParam : Option RegDocumentParam) : Outcome RegDocumentResp :=
  match regParam with
  | none => ⟨none, some (DocError.invalidArg "param cannot be nil"), []⟩
  | some p =>
    match p.String with
    | Except.error e => ⟨none, some e, []⟩
    | Except.ok playload => runOp cli dec (registerDocumentReq playload)

/-- The request PublishDocument builds (document.go lines 79–84): PUT
/v2/document/{id}?publish. -/
def publishDocumentReq (documentId : String) : BceRequest :=
  (((({} : BceRequest).setUri ("/v2/document/" ++ documentId)).setParam "publish"
    "").setMethod PUT).setHeader CONTENT_TYPE DEFAULT_CONTENT_TYPE

/-- `PublishDocument` (document.go lines 78–94): no validation, one send, no
body parse. -/
def PublishDocument (cli : DocClient) (documentId : String) :
    Option DocError × List Event :=
  runOpNoParse cli (publishDocumentReq documentId)

/-- The request QueryDocument builds (document.go lines 106–113): GET
/v2/document/{id}, with `https=<bool>` only when the optional param is
supplied. -/
def queryDocumentReq (documentId : String) (queryParam : Option QueryDocumentParam) :
    BceRequest :=
  let req := ({} : BceRequest).setUri ("/v2/document/" ++ documentId)
  let req :=
    match queryParam with
    | some q => req.setParam "https" (FormatBool q.Https)
    | none => req
  (req.setMethod GET).setHeader CONTENT_TYPE DEFAULT_CONTENT_TYPE

/-- `QueryDocument` (document.go lines 105–126). -/
def QueryDocument (cli : DocClient) (dec : Decoder QueryDocumentResp)
    (documentId : String) (queryParam : Option QueryDocumentParam) :
    Outcome QueryDocumentResp :=
  runOp cli dec (queryDocumentReq documentId queryParam)

/-- The request ReadDocument builds (document.go lines 138–146): GET
/v2/document/{id}?read, with `expireInSeconds=<int>` only when the optional
param is supplied. -/
def readDocumentReq (documentId : String) (readParam : Option ReadDocumentParam) :
    BceRequest :=
  let req := (({} : BceRequest).setUri ("/v2/document/" ++ documentId)).setParam
    "read" ""
  let req :=
    match readParam with
    | some rp => req.setParam "expireInSeconds" (FormatInt rp.ExpireInSeconds)
    | none => req
  (req.setMethod GET).setHeader CONTENT_TYPE DEFAULT_CONTENT_TYPE

/-- `ReadDocument` (document.go lines 137–159). -/
def ReadDocument (cli : DocClient) (dec : Decoder ReadDocumentResp)
    (documentId : String) (readParam : Option ReadDocumentParam) :
    Outcome ReadDocumentResp :=
  runOp cli dec (readDocumentReq documentId readParam)

/-- The request GetImages builds (document.go lines 170–175): GET
/v2/document/{id}?getImages. -/
def getImagesReq (documentId : String) : BceRequest :=
  (((({} : BceRequest).setUri ("/v2/document/" ++ documentId)).setParam
    "getImages" "").setMethod GET).setHeader CONTENT_TYPE DEFAULT_CONTENT_TYPE

/-- `GetImages` (document.go lines 169–189). -/
def GetImages (cli : DocClient) (dec : Decoder GetImagesResp)
    (documentId : String) : Outcome GetImagesResp :=
  runOp cli dec (getImagesReq documentId)

/-- The request DeleteDocument builds (document.go lines 199–203): DELETE
/v2/document/{id}, no query discriminator. -/
def deleteDocumentReq (documentId : String) : BceRequest :=
  ((({} : BceRequest).setUri ("/v2/document/" ++ documentId)).setMethod
    DELETE).setHeader CONTENT_TYPE DEFAULT_CONTENT_TYPE

/-- `DeleteDocument` (document.go lines 198–213): no body parse. -/
def DeleteDocument (cli : DocClient) (documentId : String) :
    Option DocError × List Event :=
  runOpNoParse cli (deleteDocumentReq documentId)

/-- The request ListDocuments builds (document.go lines 229–240): GET
/v2/document/ with each of the three filters included only when its field is
non-default; no Content-Type header is set. -/
def listDocumentsReq (p : ListDocumentsParam) : BceRequest :=
  let req := (({} : BceRequest).setUri "/v2/document/").setMethod GET
  let req := if p.Status ≠ "" then req.setParam "status" p.Status else req
  let req := if p.Marker ≠ "" then req.setParam "marker" p.Marker else req
  if p.MaxSize ≠ 0 then req.setParam "maxSize" (FormatInt p.MaxSize) else req

/-- `ListDocuments` (document.go lines 223–254) on a non-nil param: `Check`
failure returns the validation error before any send; otherwise the filtered
GET request is dispatched. -/
def ListDocuments (cli : DocClient) (dec : Decoder ListDocumentsResp)
    (listParam : ListDocumentsParam) : Outcome ListDocumentsResp :=
  match listParam.Check with
  | some e => ⟨none, some e, []⟩
  | none => runOp cli dec (listDocumentsReq listParam)

/-- The result of calling ListDocuments through its Go pointer signature: the
call either dereferences a nil pointer (a runtime panic, `nilDeref`) or runs to
an outcome. -/
inductive ListCall where
  | nilDeref
  | done (o : Outcome ListDocumentsResp)
  deriving DecidableEq, Repr

/-- `ListDocuments` exactly as its Go signature takes the pointer
`*ListDocumentsParam` (document.go lines 223–228): `listParam.Check()` is
invoked unconditionally, so a nil pointer is dereferenced inside `Check` before
any guarded rejection can happen. -/
def ListDocumentsGo (cli : DocClient) (dec : Decoder ListDocumentsResp)
    (listParam : Option ListDocumentsParam) : ListCall :=
  match listParam with
  | none => ListCall.nilDeref
  | some p => ListCall.done (ListDocuments cli dec p)

/-- A concrete failing response: service error envelope code "NotFound". -/
def wResp : BceResponse := ⟨true, "NotFound", "no such document", []⟩

/-- A concrete transport double that always answers with the failing
envelope. -/
def wCliFail : DocClient := ⟨fun _ => SendOutcome.response wResp⟩

/-- A concrete successful (non-fail) response with an empty body. -/
def wOkResp : BceResponse := ⟨false, "", "", []⟩

/-- A concrete transport double that always answers with success. -/
def wCliOk : DocClient := ⟨fun _ => SendOutcome.response wOkResp⟩

/-- A concrete decoder double for register results. -/
def wRegDec : Decoder RegDocumentResp :=
  fun _ => Except.error (DocError.decode "unused")

/-- A concrete decoder double for list results. -/
def wListDec : Decoder ListDocumentsResp :=
  fun _ => Except.error (DocError.decode "unused")

/-! ### Helper lemmas -/

theorem stripPrefixChars_append (ps cs : List Char) :
    stripPrefixChars ps (ps ++ cs) = some cs := by
  induction ps with
  | nil => rfl
  | cons p ps ih => simp [stripPrefixChars, ih]

theorem scanJsonStr_escape (t rest : List Char) :
    scanJsonStr (escapeChars t ++ '"' :: rest) = some (t, rest) := by
  induction t with
  | nil => simp [escapeChars, scanJsonStr]
  | cons c t ih =>
    by_cases hq : c = '"'
    · subst hq
      simp [escapeChars, escapeChar, scanJsonStr, ih]
    · by_cases hb : c = '\\'
      · subst hb
        simp [escapeChars, escapeChar, scanJsonStr, ih]
      · simp [escapeChars, escapeChar, scanJsonStr, hq, hb, ih]

/-- Marshal-then-parse of a register param is the identity. -/
theorem parseRegBody_regDocumentBody (p : RegDocumentParam) :
    parseRegBody (regDocumentBody p) = some p := by
  unfold parseRegBody regDocumentBody
  simp only [stripPrefixChars_append, scanJsonStr_escape]

/-- The shared tail returns the decoded service error, a nil result and no parse
attempt whenever the transport answers with a failing response. -/
theorem runOp_fail {T : Type} (cli : DocClient) (dec : Decoder T)
    (req : BceRequest) (resp : BceResponse)
    (hs : cli.send req = SendOutcome.response resp) (hf : resp.IsFail = true) :
    runOp cli dec req = ⟨none, some resp.serviceError, [Event.send req]⟩ := by
  unfold runOp
  rw [hs]
  simp [hf]

/-- The no-parse tail returns the decoded service error on a failing
response. -/
theorem runOpNoParse_fail (cli : DocClient) (req : BceRequest)
    (resp : BceResponse) (hs : cli.send req = SendOutcome.response resp)
    (hf : resp.IsFail = true) :
    runOpNoParse cli req = (some resp.serviceError, [Event.send req]) := by
  unfold runOpNoParse
  rw [hs]
  simp [hf]

/-- The no-parse tail always performs exactly one transport invocation. -/
theorem runOpNoParse_trace (cli : DocClient) (req : BceRequest) :
    (runOpNoParse cli req).2 = [Event.send req] := by
  unfold runOpNoParse
  cases cli.send req with
  | transportErr e => rfl
  | response resp => by_cases hf : resp.IsFail <;> simp [hf]

/-! ### The claims -/

/-- C1: for every operation, if the transport call succeeds but the response is
a failure (IsFail), the operation returns the decoded service error, the typed
result is left at its zero/absent value, and the success-body JSON parse is
never attempted (the trace carries the single send event and no parse
event). -/
theorem claim_C1_service_error (cli : DocClient) (resp : BceResponse)
    (hall : ∀ r, cli.send r = SendOutcome.response resp)
    (hf : resp.IsFail = true) :
    (∀ dec p, RegisterDocument cli dec (some p) =
      ⟨none, some resp.serviceError,
        [Event.send (registerDocumentReq (regDocumentBody p))]⟩) ∧
    (∀ id, PublishDocument cli id =
      (some resp.serviceError, [Event.send (publishDocumentReq id)])) ∧
    (∀ dec id qp, QueryDocument cli dec id qp =
      ⟨none, some resp.serviceError, [Event.send (queryDocumentReq id qp)]⟩) ∧
    (∀ dec id rp, ReadDocument cli dec id rp =
      ⟨none, some resp.serviceError, [Event.send (readDocumentReq id rp)]⟩) ∧
    (∀ dec id, GetImages cli dec id =
      ⟨none, some resp.serviceError, [Event.send (getImagesReq id)]⟩) ∧
    (∀ id, DeleteDocument cli id =
      (some resp.serviceError, [Event.send (deleteDocumentReq id)])) ∧
    (∀ dec p, p.Check = none → ListDocuments cli dec p =
      ⟨none, some resp.serviceError, [Event.send (listDocumentsReq p)]⟩) := by
  refine ⟨fun dec p => ?_, fun id => ?_, fun dec id qp => ?_, fun dec id rp => ?_,
    fun dec id => ?_, fun id => ?_, fun dec p hc => ?_⟩
  · exact runOp_fail cli dec _ resp (hall _) hf
  · exact runOpNoParse_fail cli _ resp (hall _) hf
  · exact runOp_fail cli dec _ resp (hall _) hf
  · exact runOp_fail cli dec _ resp (hall _) hf
  · exact runOp_fail cli dec _ resp (hall _) hf
  · exact runOpNoParse_fail cli _ resp (hall _) hf
  · unfold ListDocuments
    rw [hc]
    exact runOp_fail cli dec _ resp (hall _) hf

/-- C1 witness: a concrete failing envelope (code "NotFound") surfaces as the
service error of a concrete RegisterDocument call, result absent, no parse
event. -/
theorem claim_C1_service_error_witness :
    RegisterDocument wCliFail wRegDec (some ⟨"t", "pdf"⟩) =
      ⟨none, some (DocError.service "NotFound" "no such document"),
        [Event.send (registerDocumentReq (regDocumentBody ⟨"t", "pdf"⟩))]⟩ :=
  (claim_C1_service_error wCliFail wResp (fun _ => rfl) rfl).1 wRegDec
    ⟨"t", "pdf"⟩

/-- C2: RegisterDocument with a nil regParam returns an invalid-argument error,
a nil result, and an empty trace — the transport is never invoked. -/
theorem claim_C2_register_nil_guard (cli : DocClient)
    (dec : Decoder RegDocumentResp) :
    RegisterDocument cli dec none =
      ⟨none, some (DocError.invalidArg "param cannot be nil"), []⟩ :=
  rfl

/-- C3: with the optional param objects absent, QueryDocument's request carries
no "https" key and ReadDocument's request carries no "expireInSeconds" key. -/
theorem claim_C3_absent_optional_params (documentId : String) :
    lookupKV (queryDocumentReq documentId none).params "https" = none ∧
    lookupKV (readDocumentReq documentId none).params "expireInSeconds" = none :=
  ⟨rfl, rfl⟩

/-- C4: ListDocuments with a param failing `Check` returns that validation error
with nil result and an empty trace — no transport invocation. -/
theorem claim_C4_list_validation_fail (cli : DocClient)
    (dec : Decoder ListDocumentsResp) (p : ListDocumentsParam) (e : DocError)
    (hc : p.Check = some e) :
    ListDocuments cli dec p = ⟨none, some e, []⟩ := by
  unfold ListDocuments
  rw [hc]

/-- C4 witness: MaxSize = -1 fails the check and ListDocuments returns the
validation error without invoking the transport. -/
theorem claim_C4_list_validation_fail_witness :
    ListDocumentsParam.Check ⟨"", "", -1⟩ =
      some (DocError.invalidArg "invalid maxSize") ∧
    ListDocuments wCliFail wListDec ⟨"", "", -1⟩ =
      ⟨none, some (DocError.invalidArg "invalid maxSize"), []⟩ :=
  ⟨by decide,
   claim_C4_list_validation_fail wCliFail wListDec ⟨"", "", -1⟩ _ (by decide)⟩

/-- C5: a ListDocuments call that passes validation dispatches a GET request to
/v2/document/ whose query holds "status" iff Status is non-empty, "marker" iff
Marker is non-empty, and decimal "maxSize" iff MaxSize is non-zero. -/
theorem claim_C5_list_request_shape (cli : DocClient)
    (dec : Decoder ListDocumentsResp) (p : ListDocumentsParam)
    (hc : p.Check = none) :
    ListDocuments cli dec p = runOp cli dec (listDocumentsReq p) ∧
    (listDocumentsReq p).method = GET ∧
    (listDocumentsReq p).uri = "/v2/document/" ∧
    lookupKV (listDocumentsReq p).params "status" =
      (if p.Status = "" then none else some p.Status) ∧
    lookupKV (listDocumentsReq p).params "marker" =
      (if p.Marker = "" then none else some p.Marker) ∧
    lookupKV (listDocumentsReq p).params "maxSize" =
      (if p.MaxSize = 0 then none else some (FormatInt p.MaxSize)) := by
  refine ⟨?_, ?_, ?_, ?_, ?_, ?_⟩
  · unfold ListDocuments
    rw [hc]
  all_goals
    by_cases hs : p.Status = "" <;> by_cases hm : p.Marker = "" <;>
      by_cases hz : p.MaxSize = 0 <;>
      simp [listDocumentsReq, BceRequest.setParam, BceRequest.setUri,
        BceRequest.setMethod, setKV, lookupKV, hs, hm, hz]

/-- C5 witness: marker "m1" with MaxSize 20 passes the check and the query holds
both marker=m1 and maxSize=20. -/
theorem claim_C5_list_request_shape_witness :
    ListDocumentsParam.Check ⟨"", "m1", 20⟩ = none ∧
    lookupKV (listDocumentsReq ⟨"", "m1", 20⟩).params "marker" = some "m1" ∧
    lookupKV (listDocumentsReq ⟨"", "m1", 20⟩).params "maxSize" = some "20" :=
  ⟨by decide,
   ((claim_C5_list_request_shape wCliFail wListDec ⟨"", "m1", 20⟩
      (by decide)).2.2.2.2.1).trans (by decide),
   ((claim_C5_list_request_shape wCliFail wListDec ⟨"", "m1", 20⟩
      (by decide)).2.2.2.2.2).trans (by decide)⟩

/-- C6: RegisterDocument with a non-nil regParam that serializes successfully
builds a POST /v2/document request whose query holds "register" and whose JSON
body deserializes back to the same {title, format} values. -/
theorem claim_C6_register_request_roundtrip (p : RegDocumentParam)
    (pl : List Char) (h : p.String = Except.ok pl) :
    (registerDocumentReq pl).method = POST ∧
    (registerDocumentReq pl).uri = "/v2/document" ∧
    lookupKV (registerDocumentReq pl).params "register" = some "" ∧
    parseRegBody pl = some p ∧
    (registerDocumentReq pl).body = some pl ∧
    ∀ cli dec, RegisterDocument cli dec (some p) =
      runOp cli dec (registerDocumentReq pl) := by
  have hpl : pl = regDocumentBody p := by
    unfold RegDocumentParam.String at h
    exact (Except.ok.inj h).symm
  subst hpl
  exact ⟨rfl, rfl, rfl, parseRegBody_regDocumentBody p, rfl, fun cli dec => rfl⟩

/-- C6 witness: the concrete param {title "t", format "pdf"} round-trips through
the serialized body of the built POST request. -/
theorem claim_C6_register_request_roundtrip_witness :
    parseRegBody (regDocumentBody ⟨"t", "pdf"⟩) = some ⟨"t", "pdf"⟩ ∧
    (registerDocumentReq (regDocumentBody ⟨"t", "pdf"⟩)).method = POST :=
  ⟨(claim_C6_register_request_roundtrip ⟨"t", "pdf"⟩ _ rfl).2.2.2.1,
   (claim_C6_register_request_roundtrip ⟨"t", "pdf"⟩ _ rfl).1⟩

/-- C7: QueryDocument with a supplied queryParam builds a GET request to
/v2/document/{id} whose query holds "https" with the boolean formatting of the
Https field, and dispatches exactly that request. -/
theorem claim_C7_query_request_shape (cli : DocClient)
    (dec : Decoder QueryDocumentResp) (documentId : String)
    (q : QueryDocumentParam) :
    (queryDocumentReq documentId (some q)).method = GET ∧
    (queryDocumentReq documentId (some q)).uri = "/v2/document/" ++ documentId ∧
    lookupKV (queryDocumentReq documentId (some q)).params "https" =
      some (FormatBool q.Https) ∧
    QueryDocument cli dec documentId (some q) =
      runOp cli dec (queryDocumentReq documentId (some q)) :=
  ⟨rfl, rfl, rfl, rfl⟩

/-- C8: every request built by the six item operations carries Content-Type set
to the fixed default value, and the ListDocuments request carries no
Content-Type header. -/
theorem claim_C8_content_type_header :
    (∀ pl, lookupKV (registerDocumentReq pl).headers CONTENT_TYPE =
      some DEFAULT_CONTENT_TYPE) ∧
    (∀ id, lookupKV (publishDocumentReq id).headers CONTENT_TYPE =
      some DEFAULT_CONTENT_TYPE) ∧
    (∀ id qp, lookupKV (queryDocumentReq id qp).headers CONTENT_TYPE =
      some DEFAULT_CONTENT_TYPE) ∧
    (∀ id rp, lookupKV (readDocumentReq id rp).headers CONTENT_TYPE =
      some DEFAULT_CONTENT_TYPE) ∧
    (∀ id, lookupKV (getImagesReq id).headers CONTENT_TYPE =
      some DEFAULT_CONTENT_TYPE) ∧
    (∀ id, lookupKV (deleteDocumentReq id).headers CONTENT_TYPE =
      some DEFAULT_CONTENT_TYPE) ∧
    (∀ p, lookupKV (listDocumentsReq p).headers CONTENT_TYPE = none) := by
  refine ⟨fun pl => rfl, fun id => rfl, fun id qp => ?_, fun id rp => ?_,
    fun id => rfl, fun id => rfl, fun p => ?_⟩
  · cases qp <;> rfl
  · cases rp <;> rfl
  · by_cases hs : p.Status = "" <;> by_cases hm : p.Marker = "" <;>
      by_cases hz : p.MaxSize = 0 <;>
      simp [listDocumentsReq, BceRequest.setParam, BceRequest.setUri,
        BceRequest.setMethod, setKV, lookupKV, hs, hm, hz]

/-- C9 counterexample: with documentId = "" and a transport answering success,
PublishDocument does not fail before any network call — it returns no error and
its trace contains the transport invocation of PUT /v2/document/?publish. -/
theorem claim_C9_counterexample :
    (PublishDocument wCliOk "").1 = none ∧
    (PublishDocument wCliOk "").2 = [Event.send (publishDocumentReq "")] :=
  ⟨rfl, rfl⟩

/-- C9 (amended): PublishDocument performs no client-side validation at all —
for every documentId, including the empty string, it builds the request PUT
/v2/document/{id} with query key "publish" and invokes the transport exactly
once. -/
theorem claim_C9_publish_no_validation (cli : DocClient)
    (documentId : String) :
    (publishDocumentReq documentId).method = PUT ∧
    (publishDocumentReq documentId).uri = "/v2/document/" ++ documentId ∧
    lookupKV (publishDocumentReq documentId).params "publish" = some "" ∧
    (PublishDocument cli documentId).2 =
      [Event.send (publishDocumentReq documentId)] :=
  ⟨rfl, rfl, rfl, runOpNoParse_trace cli _⟩

/-- C10: ListDocuments has no nil guard — a nil listParam reaches the method
dispatch and dereferences the nil pointer, unlike RegisterDocument's guarded
rejection of its nil parameter. -/
theorem claim_C10_list_nil_deref (cli : DocClient)
    (dec : Decoder ListDocumentsResp) (decR : Decoder RegDocumentResp) :
    ListDocumentsGo cli dec none = ListCall.nilDeref ∧
    RegisterDocument cli decR none =
      ⟨none, some (DocError.invalidArg "param cannot be nil"), []⟩ :=
  ⟨rfl, rfl⟩

end BceDoc
